import Mathlib

/-!
Verification of the ai_image_detection backend (deepfake detection API).

The definitions below are shallow embeddings of the Python source:
machine floats are modelled by exact rationals, tensors by nested lists,
fallible code by `Except`, and the HTTP layer by explicit result values.
External library calls (PIL pixel conversion, bilinear sampling, the JET
colour map) are passed in as function parameters, since their internals
live outside this repository; everything the repository itself computes
is translated directly from the corresponding Python function.
-/

/-! ## Matrices and 3-tensors of rationals (numpy / torch values) -/

abbrev Mat := List (List ℚ)

abbrev Tensor3 := List Mat

/-- Sum of all entries of a matrix. -/
def matSum (m : Mat) : ℚ := (m.map (fun r => r.sum)).sum

/-- Number of entries of a matrix. -/
def matNumel (m : Mat) : ℕ := (m.map List.length).sum

/-- `torch.mean(g, dim=(2,3))` on one channel: mean over the spatial axes. -/
def spatialMean (m : Mat) : ℚ := matSum m / (matNumel m : ℚ)

/-- Scale every entry of a matrix. -/
def matScale (c : ℚ) (m : Mat) : Mat := m.map (fun r => r.map (fun x => c * x))

/-- Elementwise sum of two matrices. -/
def matAdd (a b : Mat) : Mat := List.zipWith (List.zipWith (· + ·)) a b

/-- Smallest entry of a matrix (`cam.min()`); 0 on the empty matrix. -/
def matMin (m : Mat) : ℚ :=
  match m.flatten with
  | [] => 0
  | x :: xs => xs.foldl min x

/-- Largest entry of a matrix (`cam.max()`); 0 on the empty matrix. -/
def matMax (m : Mat) : ℚ :=
  match m.flatten with
  | [] => 0
  | x :: xs => xs.foldl max x

/-! ## gradcam.py: GradCAM.generate_cam -/

/-- The normalization epsilon `1e-8` from `GradCAM.generate_cam`. -/
def CAM_EPS : ℚ := 1 / 100000000

/-- `weights = torch.mean(gradients, dim=(2,3))` followed by
`cam = torch.sum(weights * activations, dim=1)`: per-channel spatial mean
of the gradients, then the weighted sum of the activation channels. -/
def weightedActivationSum (gradients activations : Tensor3) : Mat :=
  match List.zipWith (fun g a => matScale (spatialMean g) a) gradients activations with
  | [] => []
  | m :: ms => ms.foldl matAdd m

/-- `cam = torch.relu(cam)`: elementwise rectification. -/
def reluMat (m : Mat) : Mat := m.map (fun r => r.map (fun x => max x 0))

/-- The min-max normalization step of `GradCAM.generate_cam`:
`if cam_max > cam_min: cam = (cam - cam_min) / (cam_max - cam_min + 1e-8)
else: cam = torch.zeros_like(cam)`. -/
def normalizeCam (cam : Mat) : Mat :=
  if matMin cam < matMax cam then
    cam.map (fun r => r.map (fun x => (x - matMin cam) / (matMax cam - matMin cam + CAM_EPS)))
  else cam.map (fun r => r.map (fun _ => 0))

/-- The numeric tail of `GradCAM.generate_cam` once gradients and
activations have been captured: weight, aggregate, rectify, normalize. -/
def generate_cam_core (gradients activations : Tensor3) : Mat :=
  normalizeCam (reluMat (weightedActivationSum gradients activations))

/-- Shape of the 4-d input tensor `(1, 3, H, W)`. -/
structure Shape4 where
  n : ℕ
  c : ℕ
  h : ℕ
  w : ℕ
deriving DecidableEq, Repr

/-- `np.zeros((input_tensor.shape[2], input_tensor.shape[3]))`. -/
def zeroMap (h w : ℕ) : Mat := List.replicate h (List.replicate w 0)

/-- `GradCAM.generate_cam` after the backward pass: the stored gradients and
activations are read; if either is `None` a warning is logged and the all-zero
map of the input tensor's spatial size is returned, otherwise the numeric
pipeline runs. -/
def generate_cam (inputShape : Shape4) (gradients activations : Option Tensor3) : Mat :=
  match gradients, activations with
  | some g, some a => generate_cam_core g a
  | _, _ => zeroMap inputShape.h inputShape.w

/-- The backward-target selection in `GradCAM.generate_cam`:
`if int(target_class) == 1: output = score else: output = -score`. -/
def selectBackwardTarget (targetClass : ℤ) (score : ℚ) : ℚ :=
  if targetClass = 1 then score else -score

/-! ### Helper lemmas about list minima and maxima -/

lemma foldl_min_le_init (xs : List ℚ) (a : ℚ) : xs.foldl min a ≤ a := by
  induction xs generalizing a with
  | nil => exact le_refl a
  | cons x xs ih =>
      calc (x :: xs).foldl min a = xs.foldl min (min a x) := rfl
        _ ≤ min a x := ih (min a x)
        _ ≤ a := min_le_left a x

lemma foldl_min_le_mem {xs : List ℚ} {y : ℚ} (a : ℚ) (hy : y ∈ xs) :
    xs.foldl min a ≤ y := by
  induction xs generalizing a with
  | nil => cases hy
  | cons x xs ih =>
      rcases List.mem_cons.mp hy with h | h
      · subst h
        calc (y :: xs).foldl min a = xs.foldl min (min a y) := rfl
          _ ≤ min a y := foldl_min_le_init xs (min a y)
          _ ≤ y := min_le_right a y
      · exact ih (min a x) h

lemma le_foldl_max_init (xs : List ℚ) (a : ℚ) : a ≤ xs.foldl max a := by
  induction xs generalizing a with
  | nil => exact le_refl a
  | cons x xs ih =>
      calc a ≤ max a x := le_max_left a x
        _ ≤ xs.foldl max (max a x) := ih (max a x)
        _ = (x :: xs).foldl max a := rfl

lemma le_foldl_max_mem {xs : List ℚ} {y : ℚ} (a : ℚ) (hy : y ∈ xs) :
    y ≤ xs.foldl max a := by
  induction xs generalizing a with
  | nil => cases hy
  | cons x xs ih =>
      rcases List.mem_cons.mp hy with h | h
      · subst h
        calc y ≤ max a y := le_max_right a y
          _ ≤ xs.foldl max (max a y) := le_foldl_max_init xs (max a y)
          _ = (y :: xs).foldl max a := rfl
      · exact ih (max a x) h

lemma matMin_le_entry {m : Mat} {r : List ℚ} {y : ℚ} (hr : r ∈ m) (hy : y ∈ r) :
    matMin m ≤ y := by
  have hflat : y ∈ m.flatten := List.mem_flatten.mpr ⟨r, hr, hy⟩
  unfold matMin
  cases hm : m.flatten with
  | nil => rw [hm] at hflat; cases hflat
  | cons x xs =>
      rw [hm] at hflat
      rcases List.mem_cons.mp hflat with h | h
      · subst h; exact foldl_min_le_init xs y
      · exact foldl_min_le_mem x h

lemma entry_le_matMax {m : Mat} {r : List ℚ} {y : ℚ} (hr : r ∈ m) (hy : y ∈ r) :
    y ≤ matMax m := by
  have hflat : y ∈ m.flatten := List.mem_flatten.mpr ⟨r, hr, hy⟩
  unfold matMax
  cases hm : m.flatten with
  | nil => rw [hm] at hflat; cases hflat
  | cons x xs =>
      rw [hm] at hflat
      rcases List.mem_cons.mp hflat with h | h
      · subst h; exact le_foldl_max_init xs y
      · exact le_foldl_max_mem x h

/-! ## Theorems for the Grad-CAM numeric pipeline -/

/-- C1: for every captured gradient/activation pair, the importance map
returned by `GradCAM.generate_cam` is elementwise within `[0,1]` (the ReLU
floor followed by `(map - min) / (max - min + 1e-8)` keeps every entry
nonnegative and at most 1), and when the rectified map's max equals its min
exactly the result is the all-zero map of the same shape rather than a
division-based value. -/
theorem generate_cam_unit_interval_and_flat_zero (gradients activations : Tensor3) :
    (∀ row ∈ generate_cam_core gradients activations, ∀ x ∈ row, 0 ≤ x ∧ x ≤ 1) ∧
    (matMax (reluMat (weightedActivationSum gradients activations)) =
        matMin (reluMat (weightedActivationSum gradients activations)) →
      generate_cam_core gradients activations =
        (reluMat (weightedActivationSum gradients activations)).map
          (fun r => r.map (fun _ => 0))) := by
  constructor
  · intro row hrow x hx
    unfold generate_cam_core normalizeCam at hrow
    by_cases h : matMin (reluMat (weightedActivationSum gradients activations)) <
        matMax (reluMat (weightedActivationSum gradients activations))
    · rw [if_pos h] at hrow
      rcases List.mem_map.mp hrow with ⟨r0, hr0, rfl⟩
      rcases List.mem_map.mp hx with ⟨y, hy, rfl⟩
      have hmn := matMin_le_entry hr0 hy
      have hmx := entry_le_matMax hr0 hy
      have heps : (0:ℚ) < CAM_EPS := by norm_num [CAM_EPS]
      have hden : 0 < matMax (reluMat (weightedActivationSum gradients activations)) -
          matMin (reluMat (weightedActivationSum gradients activations)) + CAM_EPS := by
        linarith
      constructor
      · exact div_nonneg (by linarith) (le_of_lt hden)
      · rw [div_le_one hden]; linarith
    · rw [if_neg h] at hrow
      rcases List.mem_map.mp hrow with ⟨r0, hr0, rfl⟩
      rcases List.mem_map.mp hx with ⟨y, hy, rfl⟩
      norm_num
  · intro hflat
    unfold generate_cam_core normalizeCam
    have hnl : ¬ matMin (reluMat (weightedActivationSum gradients activations)) <
        matMax (reluMat (weightedActivationSum gradients activations)) := by
      rw [hflat]; exact lt_irrefl _
    rw [if_neg hnl]

/-- Witness for C1 at a concrete capture: gradients `[[[1,1]]]`,
activations `[[[0,2]]]` produce the map `[[0, 200000000/200000001]]`. -/
theorem generate_cam_unit_interval_witness :
    0 ≤ (200000000/200000001 : ℚ) ∧ (200000000/200000001 : ℚ) ≤ 1 := by
  have hcore : generate_cam_core [[[1,1]]] [[[0,2]]] = [[0, 200000000/200000001]] := by
    norm_num [generate_cam_core, normalizeCam, weightedActivationSum, matScale,
      spatialMean, matSum, matNumel, reluMat, matMin, matMax, CAM_EPS]
  exact (generate_cam_unit_interval_and_flat_zero [[[1,1]]] [[[0,2]]]).1
    [0, 200000000/200000001] (by rw [hcore]; exact List.mem_cons_self _ _)
    (200000000/200000001) (by simp)

/-- C2: the scalar chosen for the backward pass is the raw logit when the
target class is 1 (fake) and the negated logit when the target class is 0
(real); for the same logit the two differentiation targets are exact sign
inverses, and the negation branch is taken only for class 0. -/
theorem selectBackwardTarget_sign_logic (score : ℚ) :
    selectBackwardTarget 1 score = score ∧
    selectBackwardTarget 0 score = -score ∧
    selectBackwardTarget 0 score = -(selectBackwardTarget 1 score) := by
  refine ⟨rfl, ?_, ?_⟩ <;> simp [selectBackwardTarget]

/-- C3: when the stored gradients or activations are `None` after the
backward pass, `GradCAM.generate_cam` returns (rather than raises) the
all-zero map whose shape is the spatial size `(H, W)` of the input tensor. -/
theorem generate_cam_none_returns_zero_map (inputShape : Shape4)
    (gradients activations : Option Tensor3)
    (h : gradients = none ∨ activations = none) :
    generate_cam inputShape gradients activations = zeroMap inputShape.h inputShape.w ∧
    (zeroMap inputShape.h inputShape.w).length = inputShape.h ∧
    (∀ row ∈ zeroMap inputShape.h inputShape.w,
      row.length = inputShape.w ∧ ∀ x ∈ row, x = 0) := by
  refine ⟨?_, ?_, ?_⟩
  · rcases h with h | h
    · subst h; cases activations <;> rfl
    · subst h; cases gradients <;> rfl
  · exact List.length_replicate _ _
  · intro row hrow
    have hrow0 : row = List.replicate inputShape.w 0 := List.eq_of_mem_replicate hrow
    subst hrow0
    exact ⟨List.length_replicate _ _, fun x hx => List.eq_of_mem_replicate hx⟩

/-- Witness for C3: a `(1,3,4,5)`-shaped input with gradients `None` yields
the `4 × 5` zero map. -/
theorem generate_cam_none_witness :
    generate_cam ⟨1, 3, 4, 5⟩ none (some [[[3]]]) = zeroMap 4 5 :=
  (generate_cam_none_returns_zero_map ⟨1, 3, 4, 5⟩ none (some [[[3]]]) (Or.inl rfl)).1

/-! ## deepfake_detector.py: the Grad-CAM capture slots -/

/-- The two mutable capture slots of `DeepfakeDetector`
(`self.gradients`, `self.activations`), with tensors named by ids. -/
structure CamSlots where
  gradients : Option ℕ
  activations : Option ℕ
deriving DecidableEq, Repr

/-- `DeepfakeDetector.__init__`: both slots start as `None`. -/
def initSlots : CamSlots := { gradients := none, activations := none }

/-- `DeepfakeDetector.forward_with_cam`: stores the feature activations in
`self.activations` and registers the gradient hook exactly when the feature
tensor requires grad; `self.gradients` is left untouched. Returns the new
slot state and whether the hook was registered. -/
def forward_with_cam (s : CamSlots) (act : ℕ) (featRequiresGrad : Bool) :
    CamSlots × Bool :=
  ({ s with activations := some act }, featRequiresGrad)

/-- `output.backward(retain_graph=True)`: raises a RuntimeError when the
scalar does not require grad; otherwise backpropagates, firing the
registered hook (`_save_gradient`, which overwrites `self.gradients`) if
there is one. -/
def backwardStep (s : CamSlots) (hookRegistered outputRequiresGrad : Bool)
    (freshGrad : ℕ) : Except String CamSlots :=
  if outputRequiresGrad then
    .ok (if hookRegistered then { s with gradients := some freshGrad } else s)
  else .error "RuntimeError: element 0 of tensors does not require grad"

/-- What one `generate_cam` call produced: the empty map, or a map computed
from a particular gradient/activation pair. -/
inductive CamOutcome where
  | emptyMap : CamOutcome
  | computedFrom (gradId actId : ℕ) : CamOutcome
deriving DecidableEq, Repr

/-- One `GradCAM.generate_cam` call on a detector whose slots are `s`:
forward with capture (hook registered iff the feature tensor requires grad),
backward from the classifier output (which requires grad iff the feature
tensor does or a classifier parameter does), then read both slots — empty
map if either is `None`, otherwise a map computed from the stored pair. -/
def generate_cam_call (s : CamSlots) (act freshGrad : ℕ)
    (featRequiresGrad classifierRequiresGrad : Bool) :
    Except String (CamOutcome × CamSlots) :=
  match forward_with_cam s act featRequiresGrad with
  | (s1, hook) =>
    match backwardStep s1 hook (featRequiresGrad || classifierRequiresGrad) freshGrad with
    | .error e => .error e
    | .ok s2 =>
        match s2.gradients, s2.activations with
        | some g, some a => .ok (.computedFrom g a, s2)
        | _, _ => .ok (.emptyMap, s2)

/-- C4, evaluated at the failing input: `forward_with_cam` never clears
`self.gradients`, so after a first successful call (gradient 1 captured) a
second call whose feature tensor does not require grad — while the
classifier output still does — registers no hook, backpropagates without
error, and `generate_cam` computes its map from the stale gradient 1 of the
previous call paired with the fresh activation 20: neither a failure nor an
empty map, contradicting the claimed invariant. -/
theorem generate_cam_reads_stale_gradient :
    generate_cam_call initSlots 10 1 true true =
      .ok (.computedFrom 1 10, { gradients := some 1, activations := some 10 }) ∧
    generate_cam_call { gradients := some 1, activations := some 10 } 20 2 false true =
      .ok (.computedFrom 1 20, { gradients := some 1, activations := some 20 }) ∧
    (1 : ℕ) ≠ 2 := by
  exact ⟨rfl, rfl, by decide⟩

/-! ## deps.py: initialize_model_and_services -/

/-- Whether the model object is the bare `DeepfakeDetector` or is wrapped in
`torch.nn.DataParallel`. -/
inductive WrapState where
  | plain : WrapState
  | dataParallel : WrapState
deriving DecidableEq, Repr

/-- The model as `initialize_model_and_services` sees it: its wrapper state
and which weights it carries. -/
structure ModelRepr where
  wrap : WrapState
  weights : String
deriving DecidableEq, Repr

/-- `model.get_num_parameters()`: the method is defined on
`DeepfakeDetector` only; on a `DataParallel` wrapper the attribute lookup
raises `AttributeError`, because `nn.DataParallel` does not delegate custom
methods to the wrapped `.module`. -/
def get_num_parameters (m : ModelRepr) : Except String Unit :=
  match m.wrap with
  | .dataParallel =>
      .error "AttributeError: DataParallel object has no attribute get_num_parameters"
  | .plain => .ok ()

/-- The config default `USE_DATAPARALLEL: bool = True` from config.py. -/
def USE_DATAPARALLEL : Bool := true

/-- `initialize_model_and_services` from deps.py, abstracted over whether
`USE_DATAPARALLEL` is set, whether the checkpoint file exists, and whether
`torch.load` plus `load_state_dict` succeed. The model starts with
pretrained weights, is wrapped when `USE_DATAPARALLEL` is set, the
checkpoint is loaded inside a `try` whose handler logs and keeps the
pretrained weights, the wrapper is removed only on a successful load, and
`state.model.get_num_parameters()` is then called before the services are
built; an exception there reaches the outer handler, which re-raises.
Returns the weights in use on a completed startup, or the escaped error. -/
def initialize_model_and_services (useDataParallel ckptExists loadOk : Bool) :
    Except String String :=
  let m0 : ModelRepr := { wrap := .plain, weights := "pretrained" }
  let m1 := if useDataParallel then { m0 with wrap := .dataParallel } else m0
  let m2 :=
    if ckptExists then
      if loadOk then
        let loaded := { m1 with weights := "checkpoint" }
        if useDataParallel ∧ loaded.wrap = .dataParallel then { loaded with wrap := .plain }
        else loaded
      else m1
    else m1
  match get_num_parameters m2 with
  | .error e => .error e
  | .ok _ => .ok m2.weights

/-- C7, evaluated at the failing input: with `USE_DATAPARALLEL = True` (the
config default), a checkpoint-load failure — and even a merely absent
checkpoint — leaves the `DataParallel` wrapper in place, so the subsequent
`state.model.get_num_parameters()` call raises `AttributeError` and startup
fails; the fallback completes only with `USE_DATAPARALLEL = False`, and a
successful load completes in either mode. -/
theorem initialize_model_fails_on_fallback_with_dataparallel :
    (∃ e, initialize_model_and_services USE_DATAPARALLEL true false = .error e) ∧
    (∃ e, initialize_model_and_services USE_DATAPARALLEL false true = .error e) ∧
    initialize_model_and_services false true false = .ok "pretrained" ∧
    initialize_model_and_services false false true = .ok "pretrained" ∧
    initialize_model_and_services true true true = .ok "checkpoint" := by
  exact ⟨⟨_, rfl⟩, ⟨_, rfl⟩, rfl, rfl, rfl⟩

/-! ## session_cache.py and reports.py: the report endpoint -/

/-- `MAX_SESSION_AGE_MINUTES = 60` from session_cache.py. -/
def MAX_SESSION_AGE_MINUTES : ℤ := 60

/-- The in-memory `detection_cache`: session id, creation timestamp (in
minutes), and an id standing for the cached paths and result data. -/
abbrev SessionCache := List (String × ℤ × ℕ)

/-- `get_session`: `detection_cache.get(session_id)` — a plain dictionary
lookup with no age check. -/
def get_session (cache : SessionCache) (sid : String) : Option (ℤ × ℕ) :=
  (cache.find? (fun e => decide (e.1 = sid))).map (fun e => e.2)

/-- `cleanup_old_sessions`: drops every session whose timestamp is strictly
older than `now - MAX_SESSION_AGE_MINUTES`. (The `MAX_CACHE_SIZE` eviction
branch of the source only fires above 1,000,000 sessions and is not
involved in these claims.) -/
def cleanup_old_sessions (now : ℤ) (cache : SessionCache) : SessionCache :=
  cache.filter (fun e => !(decide (e.2.1 < now - MAX_SESSION_AGE_MINUTES)))

/-- The `/report/{session_id}` endpoint (`generate_pdf_report` in
reports.py): look up the session (absent ⇒ HTTP 404), check that the two
stored files still exist (missing ⇒ HTTP 404), then build the PDF from the
cached data. -/
def generate_pdf_report (cache : SessionCache) (sid : String)
    (origExists gradcamExists : Bool) : Except ℕ ℕ :=
  match get_session cache sid with
  | none => .error 404
  | some (_, payload) =>
      if !origExists then .error 404
      else if !gradcamExists then .error 404
      else .ok payload

/-- C8 counterexample: a session created at time 0 and requested at
`now = 120` minutes is twice as old as the retention window, yet the report
endpoint still serves it, because `get_session` performs no age check —
expired sessions are only dropped when the hourly cleanup task runs. -/
theorem report_serves_expired_session :
    (120 : ℤ) - 0 > MAX_SESSION_AGE_MINUTES ∧
    generate_pdf_report [("sess", 0, 42)] "sess" true true = .ok 42 := by
  exact ⟨by decide, rfl⟩

/-- C8 amended: a report request whose session id is absent from the cache
(never existed, or already removed) fails with exactly HTTP 404 and no
exception; and after `cleanup_old_sessions` has run at time `now`, every
session of that id older than the retention window has been removed, so the
request then yields 404. -/
theorem report_not_found_for_unknown_or_cleaned_session (cache : SessionCache)
    (sid : String) (origExists gradcamExists : Bool) (now : ℤ) :
    ((∀ e ∈ cache, e.1 ≠ sid) →
      generate_pdf_report cache sid origExists gradcamExists = .error 404) ∧
    ((∀ e ∈ cache, e.1 = sid → e.2.1 < now - MAX_SESSION_AGE_MINUTES) →
      generate_pdf_report (cleanup_old_sessions now cache) sid origExists gradcamExists
        = .error 404) := by
  constructor
  · intro h
    have hfind : cache.find? (fun e => decide (e.1 = sid)) = none := by
      rw [List.find?_eq_none]
      intro e he
      simpa using h e he
    simp [generate_pdf_report, get_session, hfind]
  · intro h
    have hfind : (cleanup_old_sessions now cache).find?
        (fun e => decide (e.1 = sid)) = none := by
      rw [List.find?_eq_none]
      intro e he
      rcases List.mem_filter.mp he with ⟨hmem, hkeep⟩
      simp only [decide_eq_true_eq]
      intro hid
      have hold := h e hmem hid
      simp [hold] at hkeep
    simp [generate_pdf_report, get_session, hfind]

/-- Witness for C8 amended: an unknown id is 404, and a session aged past
the window is 404 once the cleanup has run. -/
theorem report_not_found_witness :
    generate_pdf_report [("abc", 100, 1)] "zzz" true true = .error 404 ∧
    generate_pdf_report (cleanup_old_sessions 200 [("sess", 0, 7)]) "sess" true true
      = .error 404 :=
  ⟨(report_not_found_for_unknown_or_cleaned_session [("abc", 100, 1)] "zzz" true true 0).1
      (by decide),
   (report_not_found_for_unknown_or_cleaned_session [("sess", 0, 7)] "sess" true true 200).2
      (by decide)⟩

/-! ## file_service.py: FileService.validate_image_file -/

/-- `ALLOWED_IMAGE_TYPES` from config.py. -/
def ALLOWED_IMAGE_TYPES : List String :=
  ["image/jpeg", "image/jpg", "image/png", "image/webp"]

/-- `MAX_IMAGE_SIZE_MB` from config.py. -/
def MAX_IMAGE_SIZE_MB : ℕ := 10

/-- An upload as `validate_image_file` sees it: declared content type
(`None` when the header is missing), reported size (`None` when unknown),
and the actual payload size — which the validator never reads. -/
structure UploadFileModel where
  contentType : Option String
  size : Option ℕ
  payloadBytes : ℕ
deriving DecidableEq, Repr

/-- Python truthiness of `not file.content_type`: `None` and `""` are falsy. -/
def contentTypeFalsy : Option String → Bool
  | none => true
  | some s => s.isEmpty

/-- Python truthiness chain `file.size and file.size > MAX * 1024 * 1024`. -/
def sizeTooLarge : Option ℕ → Bool
  | none => false
  | some s => !(s == 0) && decide (s > MAX_IMAGE_SIZE_MB * 1024 * 1024)

/-- `FileService.validate_image_file`: HTTP 400 unless the declared content
type is present and allowed; HTTP 400 when a reported size exceeds the
ceiling; otherwise returns normally. -/
def validate_image_file (f : UploadFileModel) : Except ℕ Unit :=
  if contentTypeFalsy f.contentType ||
      !(match f.contentType with
        | none => false
        | some s => decide (s ∈ ALLOWED_IMAGE_TYPES)) then .error 400
  else if sizeTooLarge f.size then .error 400
  else .ok ()

/-- C10: `validate_image_file` raises 400 for every upload whose content
type is missing or not allowed, but enforces the size ceiling only when the
upload reports a size: a reported size of `None` is never rejected for
size, whatever the actual payload size is. -/
theorem validate_image_file_type_and_size_policy (f : UploadFileModel) :
    ((f.contentType = none ∨ ∀ s, f.contentType = some s → s ∉ ALLOWED_IMAGE_TYPES) →
      validate_image_file f = .error 400) ∧
    (f.size = none → ∀ s, f.contentType = some s → s ∈ ALLOWED_IMAGE_TYPES →
      validate_image_file f = .ok ()) := by
  constructor
  · intro h
    rcases hct : f.contentType with _ | s
    · simp [validate_image_file, hct, contentTypeFalsy]
    · rcases h with h | h
      · rw [hct] at h; cases h
      · have hnot := h s hct
        simp [validate_image_file, hct, hnot]
  · intro hsz s hct hmem
    have hne : ¬ s.isEmpty := by
      simp [ALLOWED_IMAGE_TYPES] at hmem
      rcases hmem with rfl | rfl | rfl | rfl <;> decide
    simp [validate_image_file, hct, contentTypeFalsy, hne, hmem, sizeTooLarge, hsz]

/-- Witness for C10: a missing content type is rejected with 400, and an
allowed type whose reported size is unknown passes even with a gigabyte
payload. -/
theorem validate_image_file_witness :
    validate_image_file ⟨none, some 5, 5⟩ = .error 400 ∧
    validate_image_file ⟨some "image/png", none, 1073741824⟩ = .ok () :=
  ⟨(validate_image_file_type_and_size_policy ⟨none, some 5, 5⟩).1 (Or.inl rfl),
   (validate_image_file_type_and_size_policy ⟨some "image/png", none, 1073741824⟩).2
      rfl "image/png" rfl (by simp [ALLOWED_IMAGE_TYPES])⟩

/-! ## detection.py: the /detect endpoint -/

/-- `validate_image_dimensions` from image_processing.py: reject a width or
height above the maximum or below 32. No endpoint of the API calls it. -/
def validate_image_dimensions (width height maxDimension : ℕ) : Bool :=
  if width > maxDimension || height > maxDimension then false
  else if width < 32 || height < 32 then false
  else true

/-- What the `/detect` endpoint did with a request. -/
inductive DetectOutcome where
  | rejected (code : ℕ) : DetectOutcome
  | analyzed (width height : ℕ) : DetectOutcome
deriving DecidableEq, Repr

/-- The `/detect` endpoint (detection.py): validate the upload with
`FileService.validate_image_file` (content type and reported size only),
decode the bytes (failure ⇒ HTTP 400), then hand the image to
`DetectionService.detect`, which preprocesses and runs inference on it —
`analyzed` marks that numeric work on the full `width × height` image
began; no dimension check occurs anywhere on this path. -/
def detect_deepfake (f : UploadFileModel) (decodeOk : Bool) (width height : ℕ) :
    DetectOutcome :=
  match validate_image_file f with
  | .error c => .rejected c
  | .ok _ =>
      if !decodeOk then .rejected 400
      else .analyzed width height

/-- C9, evaluated at the failing input: a well-formed JPEG upload holding a
5000 × 100 image — width far outside [32, 4096] — is not rejected: the
endpoint proceeds to preprocessing and inference, even though the repo's
own `validate_image_dimensions` (which no endpoint invokes) classifies
those dimensions as invalid, as it does an undersized 10 × 2000 image. -/
theorem detect_runs_numeric_work_on_out_of_range_dimensions :
    detect_deepfake ⟨some "image/jpeg", some 1024, 1024⟩ true 5000 100 =
      .analyzed 5000 100 ∧
    validate_image_dimensions 5000 100 4096 = false ∧
    validate_image_dimensions 10 2000 4096 = false := by
  exact ⟨rfl, rfl, rfl⟩

/-! ## image_processing.py: preprocess_image -/

/-- A PIL image: colour mode, pixel dimensions, and per-channel pixel
values in `0..255` (`px channel row col`). -/
structure PILImage where
  mode : String
  height : ℕ
  width : ℕ
  px : ℕ → ℕ → ℕ → ℕ

/-- `IMAGE_SIZE = 224` from config.py. -/
def IMAGE_SIZE : ℕ := 224

/-- Channel count of a PIL colour mode (after the conversion step only
`"RGB"` is ever reached). -/
def numChannels : String → ℕ
  | "RGB" => 3
  | "L" => 1
  | "RGBA" => 4
  | _ => 3

/-- `if image.mode != 'RGB': image = image.convert('RGB')`. PIL's pixel
synthesis for the conversion lives outside this repository, so it enters
as the parameter `convPx`; the call itself guarantees an RGB-mode image of
unchanged dimensions. -/
def ensureRGB (convPx : PILImage → ℕ → ℕ → ℕ → ℕ) (img : PILImage) : PILImage :=
  if img.mode = "RGB" then img
  else { mode := "RGB", height := img.height, width := img.width, px := convPx img }

/-- `transforms.Resize((IMAGE_SIZE, IMAGE_SIZE))`: the output is always
`size × size` whatever the input dimensions; the bilinear kernel is
torchvision-internal, so the sampled value of each output pixel enters as
the parameter `sampler`. -/
def resizeTo (sampler : PILImage → ℕ → ℕ → ℕ → ℕ) (size : ℕ) (img : PILImage) :
    PILImage :=
  { mode := img.mode, height := size, width := size,
    px := fun c i j => sampler img c i j }

/-- `transforms.ToTensor()`: a `(C, H, W)` tensor of the pixel values
scaled from integer `[0, 255]` to `[0, 1]`. -/
def toTensor (img : PILImage) : Tensor3 :=
  (List.range (numChannels img.mode)).map fun c =>
    (List.range img.height).map fun i =>
      (List.range img.width).map fun j => (img.px c i j : ℚ) / 255

/-- The ImageNet channel means `[0.485, 0.456, 0.406]`. -/
def IMAGENET_MEAN : List ℚ := [485/1000, 456/1000, 406/1000]

/-- The ImageNet channel standard deviations `[0.229, 0.224, 0.225]`. -/
def IMAGENET_STD : List ℚ := [229/1000, 224/1000, 225/1000]

/-- `transforms.Normalize(mean, std)`: channel `c` is mapped through
`(x - mean[c]) / std[c]`. -/
def normalizeTensor (t : Tensor3) : Tensor3 :=
  List.zipWith (fun ms ch => ch.map (fun r => r.map fun x => (x - ms.1) / ms.2))
    (IMAGENET_MEAN.zip IMAGENET_STD) t

/-- `preprocess_image` from image_processing.py: convert to RGB when the
mode differs, resize to `224 × 224`, convert to a `[0,1]` tensor, apply the
ImageNet normalization, and `unsqueeze(0)` a leading batch dimension. The
input image is left untouched (the Python code only rebinds its local
name; PIL's `convert` returns a new image). -/
def preprocess_image (convPx : PILImage → ℕ → ℕ → ℕ → ℕ)
    (sampler : PILImage → ℕ → ℕ → ℕ → ℕ) (image : PILImage) :
    List Tensor3 :=
  [normalizeTensor (toTensor (resizeTo sampler IMAGE_SIZE (ensureRGB convPx image)))]

/-- Check that a 4-d tensor value has shape `(n, c, h, w)`. -/
def hasShape4 (t : List Tensor3) (n c h w : ℕ) : Bool :=
  t.length == n && t.all fun b =>
    b.length == c && b.all fun ch =>
      ch.length == h && ch.all fun r => r.length == w

lemma ensureRGB_mode (convPx : PILImage → ℕ → ℕ → ℕ → ℕ) (img : PILImage) :
    (ensureRGB convPx img).mode = "RGB" := by
  unfold ensureRGB
  split
  · assumption
  · rfl

/-- C5: for every decodable image of any mode and dimensions,
`preprocess_image` returns a tensor of shape exactly `(1, 3, 224, 224)`,
equal to the batch-wrapped tensor obtained by converting to RGB, resampling
at `224 × 224`, scaling each pixel by `1/255`, and then applying
`(pixel - mean_c) / std_c` per channel with the ImageNet constants — for
any PIL conversion and any resize kernel. -/
theorem preprocess_image_shape_and_values
    (convPx sampler : PILImage → ℕ → ℕ → ℕ → ℕ) (image : PILImage) :
    hasShape4 (preprocess_image convPx sampler image) 1 3 224 224 = true ∧
    preprocess_image convPx sampler image =
      [[(List.range 224).map fun i => (List.range 224).map fun j =>
          ((sampler (ensureRGB convPx image) 0 i j : ℚ) / 255 - 485/1000) / (229/1000),
        (List.range 224).map fun i => (List.range 224).map fun j =>
          ((sampler (ensureRGB convPx image) 1 i j : ℚ) / 255 - 456/1000) / (224/1000),
        (List.range 224).map fun i => (List.range 224).map fun j =>
          ((sampler (ensureRGB convPx image) 2 i j : ℚ) / 255 - 406/1000) / (225/1000)]] := by
  have hmode : (resizeTo sampler IMAGE_SIZE (ensureRGB convPx image)).mode = "RGB" :=
    ensureRGB_mode convPx image
  have hrange3 : List.range 3 = [0, 1, 2] := rfl
  have heq : preprocess_image convPx sampler image =
      [[(List.range 224).map fun i => (List.range 224).map fun j =>
          ((sampler (ensureRGB convPx image) 0 i j : ℚ) / 255 - 485/1000) / (229/1000),
        (List.range 224).map fun i => (List.range 224).map fun j =>
          ((sampler (ensureRGB convPx image) 1 i j : ℚ) / 255 - 456/1000) / (224/1000),
        (List.range 224).map fun i => (List.range 224).map fun j =>
          ((sampler (ensureRGB convPx image) 2 i j : ℚ) / 255 - 406/1000) / (225/1000)]] := by
    unfold preprocess_image toTensor
    rw [hmode]
    show [normalizeTensor _] = _
    rw [show numChannels "RGB" = 3 from rfl, hrange3]
    simp [normalizeTensor, IMAGENET_MEAN, IMAGENET_STD, resizeTo, IMAGE_SIZE,
      List.map_map, Function.comp]
  refine ⟨?_, heq⟩
  rw [heq]
  simp [hasShape4, List.all_eq_true, List.length_map, List.length_range]

/-! ## gradcam.py: apply_colormap_on_image (blending stage) -/

/-- `GRADCAM_ALPHA = 0.4` (heatmap weight) from config.py. -/
def GRADCAM_ALPHA : ℚ := 4/10

/-- `GRADCAM_BETA = 0.6` (original-image weight) from config.py. -/
def GRADCAM_BETA : ℚ := 6/10

/-- OpenCV's `saturate_cast<uchar>`: clamp an integer into `[0, 255]`. -/
def saturate255 (z : ℤ) : ℕ := (min 255 (max 0 z)).toNat

/-- One pixel of `cv2.addWeighted(org, wOrig, heat, wHeat, 0)`:
`saturate(round(org * wOrig + heat * wHeat + 0))`. -/
def addWeightedPx (wOrig wHeat : ℚ) (o h : ℕ) : ℕ :=
  saturate255 (round (wOrig * o + wHeat * h))

/-- `cv2.addWeighted` over whole images, pixel for pixel (pixels listed in
a flat scan order; the operation is purely elementwise). -/
def addWeightedImg (wOrig wHeat : ℚ) (orig heat : List ℕ) : List ℕ :=
  List.zipWith (addWeightedPx wOrig wHeat) orig heat

/-- The blending step of `apply_colormap_on_image`: the colour-mapped
heatmap (built by the cv2 colormap LUT outside this repository) is blended
with the original via `cv2.addWeighted(org_img, GRADCAM_BETA, heatmap,
GRADCAM_ALPHA, 0)`. -/
def apply_colormap_blend (orig heat : List ℕ) : List ℕ :=
  addWeightedImg GRADCAM_BETA GRADCAM_ALPHA orig heat

lemma addWeightedPx_left_id {o : ℕ} (h : ℕ) (ho : o ≤ 255) :
    addWeightedPx 1 0 o h = o := by
  unfold addWeightedPx saturate255
  have hval : (1 : ℚ) * o + 0 * h = (o : ℚ) := by ring
  rw [hval, round_natCast]
  have h0 : max 0 (o : ℤ) = (o : ℤ) := max_eq_right (Int.natCast_nonneg o)
  have h255 : min 255 (o : ℤ) = (o : ℤ) := min_eq_right (by exact_mod_cast ho)
  rw [h0, h255, Int.toNat_natCast]

lemma addWeightedPx_right_id (o : ℕ) {h : ℕ} (hh : h ≤ 255) :
    addWeightedPx 0 1 o h = h := by
  unfold addWeightedPx saturate255
  have hval : (0 : ℚ) * o + 1 * h = (h : ℚ) := by ring
  rw [hval, round_natCast]
  have h0 : max 0 (h : ℤ) = (h : ℤ) := max_eq_right (Int.natCast_nonneg h)
  have h255 : min 255 (h : ℤ) = (h : ℤ) := min_eq_right (by exact_mod_cast hh)
  rw [h0, h255, Int.toNat_natCast]

lemma addWeightedImg_left_id : ∀ (orig heat : List ℕ),
    orig.length = heat.length → (∀ p ∈ orig, p ≤ 255) →
    addWeightedImg 1 0 orig heat = orig := by
  intro orig
  induction orig with
  | nil => intro heat _ _; rfl
  | cons o os ih =>
      intro heat hlen hbound
      cases heat with
      | nil => cases hlen
      | cons h hs =>
          have hos : os.length = hs.length := by
            simpa using hlen
          have hbo : o ≤ 255 := hbound o (List.mem_cons_self o os)
          have hbos : ∀ p ∈ os, p ≤ 255 := fun p hp =>
            hbound p (List.mem_cons_of_mem o hp)
          show addWeightedPx 1 0 o h :: addWeightedImg 1 0 os hs = o :: os
          rw [addWeightedPx_left_id h hbo, ih hs hos hbos]

lemma addWeightedImg_right_id : ∀ (orig heat : List ℕ),
    orig.length = heat.length → (∀ p ∈ heat, p ≤ 255) →
    addWeightedImg 0 1 orig heat = heat := by
  intro orig
  induction orig with
  | nil =>
      intro heat hlen _
      cases heat with
      | nil => rfl
      | cons h hs => cases hlen
  | cons o os ih =>
      intro heat hlen hbound
      cases heat with
      | nil => cases hlen
      | cons h hs =>
          have hos : os.length = hs.length := by
            simpa using hlen
          have hbh : h ≤ 255 := hbound h (List.mem_cons_self h hs)
          have hbhs : ∀ p ∈ hs, p ≤ 255 := fun p hp =>
            hbound p (List.mem_cons_of_mem h hp)
          show addWeightedPx 0 1 o h :: addWeightedImg 0 1 os hs = h :: hs
          rw [addWeightedPx_right_id o hbh, ih hs hos hbhs]

/-- C6: `apply_colormap_on_image` blends per pixel as
`original * beta + heatmap * alpha` with the configured weights (defaults
`GRADCAM_ALPHA = 0.4`, `GRADCAM_BETA = 0.6`), the result clipped to the
valid pixel range; with weights `alpha = 0, beta = 1` the overlay is
pixel-identical to the original image, and with `alpha = 1, beta = 0` it
equals the colour-mapped heatmap alone. -/
theorem apply_colormap_blend_weights_and_roundtrip (orig heat : List ℕ) :
    apply_colormap_blend orig heat =
      List.zipWith
        (fun (o h : ℕ) => saturate255 (round (GRADCAM_BETA * o + GRADCAM_ALPHA * h)))
        orig heat ∧
    (∀ wOrig wHeat o h, addWeightedPx wOrig wHeat o h ≤ 255) ∧
    (orig.length = heat.length → (∀ p ∈ orig, p ≤ 255) →
      addWeightedImg 1 0 orig heat = orig) ∧
    (orig.length = heat.length → (∀ p ∈ heat, p ≤ 255) →
      addWeightedImg 0 1 orig heat = heat) := by
  refine ⟨rfl, ?_, addWeightedImg_left_id orig heat, addWeightedImg_right_id orig heat⟩
  intro wOrig wHeat o h
  unfold addWeightedPx saturate255
  have : min 255 (max 0 (round (wOrig * o + wHeat * h))) ≤ (255 : ℤ) :=
    min_le_left _ _
  omega

/-- Witness for C6: on the two-pixel images `[10, 200]` and `[255, 0]` the
weight pair `(1, 0)` reproduces the original and `(0, 1)` the heatmap. -/
theorem apply_colormap_blend_witness :
    addWeightedImg 1 0 [10, 200] [255, 0] = [10, 200] ∧
    addWeightedImg 0 1 [10, 200] [255, 0] = [255, 0] :=
  ⟨(apply_colormap_blend_weights_and_roundtrip [10, 200] [255, 0]).2.2.1 rfl
      (by decide),
   (apply_colormap_blend_weights_and_roundtrip [10, 200] [255, 0]).2.2.2 rfl
      (by decide)⟩
